import Mathlib

/-!
Verification of the `TracerProvider` / `TracerConfig` core of
`opentelemetry-rust` (`src/opentelemetry/src/trace/provider.rs`).

The source file defines the concrete `TracerConfig` value type with its
builder methods, the free function `tracer_config`, and the
`TracerProvider` trait (two methods: `get_tracer` and `force_flush`).
`TracerConfig` and its builder are embedded directly from the source.
The trait carries no implementation in the source, so provider behaviour
(identity resolution, flush aggregation) is modelled from the
specification's words; see the doc comments marked `Modelled from the
spec:` below.
-/

set_option maxHeartbeats 1000000

namespace OTel

/-- Embedding of `TracerConfig` (provider.rs, lines 26-33): a pair of an
instrumentation-library name (`&'static str`, modelled as `String`) and an
optional version string. -/
structure TracerConfig where
  name : String
  version : Option String
deriving DecidableEq, Repr

/-- Embedding of `#[derive(Default)]` on `TracerConfig`: each field takes its
own default, `""` for the string and `none` for the option, exactly as Rust's
`Default` derive does. -/
instance : Inhabited TracerConfig := ⟨⟨default, default⟩⟩

/-- Embedding of `TracerConfig::with_name` (provider.rs, lines 37-40): takes
the config by value, overwrites the `name` field and returns the config. -/
def TracerConfig.with_name (self : TracerConfig) (name : String) : TracerConfig :=
  { self with name := name }

/-- Embedding of `TracerConfig::with_version` (provider.rs, lines 42-45):
takes the config by value, sets `version` to `Some version` and returns the
config. -/
def TracerConfig.with_version (self : TracerConfig) (version : String) : TracerConfig :=
  { self with version := some version }

/-- Embedding of the free function `tracer_config` (provider.rs, lines 48-50):
returns `TracerConfig::default()`. -/
def tracer_config : TracerConfig := default

/-- Modelled from the spec: the repository's `crate::trace::TraceResult` type
is not under `src/`; the spec (section 7) describes each per-flush outcome as
either success or a described failure condition, so the result type is
modelled as a success value or a failure message. -/
inductive TraceResult (α : Type) where
  | ok (val : α)
  | err (msg : String)
deriving DecidableEq, Repr

/-- Success test for a flush outcome. -/
def TraceResult.isOk {α : Type} : TraceResult α → Bool
  | .ok _ => true
  | .err _ => false

/-- Embedding of the `TracerProvider` trait (provider.rs, lines 53-62) as a
structure of its two methods over an opaque associated tracer type `T`:
`get_tracer` maps a `TracerConfig` to a tracer value (no `Option`, no
`Result` in the signature), and `force_flush` yields the list of per-pipeline
flush outcomes. -/
structure TracerProviderIface (T : Type) where
  get_tracer : TracerConfig → T
  force_flush : List (TraceResult Unit)

/-- Modelled from the spec: no concrete `Tracer` implementation is under
`src/`; spec section 9 describes the backend variants as {real, no-op}, so a
tracer is either inert (`noop`) or a real tracer scoped to a resolved
`(name, version)` identity. -/
inductive ModelTracer where
  | noop
  | real (name : String) (version : Option String)
deriving DecidableEq, Repr

/-- Modelled from the spec: a span-processing pipeline is opaque here and
referenced only through the flush outcome it yields (spec section 6). -/
structure Pipeline where
  flush : TraceResult Unit
deriving DecidableEq, Repr

/-- Modelled from the spec: no concrete `TracerProvider` implementation is
under `src/`. A provider carries an administrative-suppression flag (spec
4.2 step 3), the fixed implementation-defined default identity used for
empty names (spec 4.2 step 1), an internal registry of issued
`(name, version)` identities (spec section 3), and the span-processing
pipelines it owns (spec `force_flush` contract). -/
structure ModelProvider where
  suppressed : Bool
  defaultName : String
  registry : List (String × Option String)
  pipelines : List Pipeline
deriving Repr

/-- Modelled from the spec: the identity a request resolves to — an empty
name is replaced by the provider's fixed default identity (spec 4.2 step 1),
any other name is kept, and the version is passed through. -/
def ModelProvider.resolve (p : ModelProvider) (c : TracerConfig) :
    String × Option String :=
  (if c.name = "" then p.defaultName else c.name, c.version)

/-- Modelled from the spec: `get_tracer` of a concrete provider (spec 4.2).
If telemetry is administratively suppressed the call returns a no-op tracer;
otherwise it resolves the identity, registers it when it is new, and returns
a real tracer scoped to the resolved identity. The provider state after the
call is returned alongside the tracer. -/
def ModelProvider.get_tracer (p : ModelProvider) (c : TracerConfig) :
    ModelTracer × ModelProvider :=
  if p.suppressed then (ModelTracer.noop, p)
  else
    let key := p.resolve c
    if key ∈ p.registry then (ModelTracer.real key.1 key.2, p)
    else (ModelTracer.real key.1 key.2, { p with registry := key :: p.registry })

/-- Modelled from the spec: `force_flush` visits every owned pipeline
unconditionally, in order, and collects each pipeline's outcome into the
returned sequence with no aggregation (spec 4.2 `force_flush` contract). -/
def ModelProvider.force_flush (p : ModelProvider) : List (TraceResult Unit) :=
  p.pipelines.map Pipeline.flush

/-- C5: default construction of `TracerConfig`, whether through
`tracer_config()` or `TracerConfig::default()`, yields `name = ""` and
`version = None`. -/
theorem tracer_config_default_fields :
    tracer_config = (default : TracerConfig) ∧
    tracer_config.name = "" ∧ tracer_config.version = none :=
  ⟨rfl, rfl, rfl⟩

/-- C6: the chain `tracer_config().with_name("io.example.lib").with_version("2.1.0")`
yields `name == "io.example.lib"` and `version == Some("2.1.0")`; the same
chain without `with_version` yields `version == None`. -/
theorem builder_chain_fields :
    ((tracer_config.with_name "io.example.lib").with_version "2.1.0").name
        = "io.example.lib" ∧
    ((tracer_config.with_name "io.example.lib").with_version "2.1.0").version
        = some "2.1.0" ∧
    (tracer_config.with_name "io.example.lib").version = none :=
  ⟨rfl, rfl, rfl⟩

/-- C7: `with_name` sets exactly the `name` field and leaves `version`
unchanged; `with_version` sets `version` to `Some v` and leaves `name`
unchanged. Both are pure value-to-value functions of the consumed config. -/
theorem builder_frame (c : TracerConfig) (n v : String) :
    (c.with_name n).name = n ∧ (c.with_name n).version = c.version ∧
    (c.with_version v).version = some v ∧ (c.with_version v).name = c.name :=
  ⟨rfl, rfl, rfl, rfl⟩

/-- C9: repeated application of the same setter is last-write-wins: the
second `with_name` (resp. `with_version`) fully overwrites the first. -/
theorem builder_last_write_wins (c : TracerConfig) (a b : String) :
    (c.with_name a).with_name b = c.with_name b ∧
    (c.with_version a).with_version b = c.with_version b :=
  ⟨rfl, rfl⟩

/-- C10: `with_name` and `with_version` commute: applying them in either
order to the same config yields the same config value. -/
theorem builder_setters_commute (c : TracerConfig) (n v : String) :
    (c.with_name n).with_version v = (c.with_version v).with_name n :=
  rfl

/-- C1: for every implementation of the `TracerProvider` trait and every
config, `get_tracer` returns a tracer value — the trait signature carries no
error channel — and on the spec-modelled provider the returned tracer is
always one of the usable variants, a no-op tracer or a real tracer scoped to
the resolved identity, for every input including the empty name. -/
theorem get_tracer_no_error_channel (T : Type) (P : TracerProviderIface T)
    (p : ModelProvider) (c : TracerConfig) :
    (∃ t : T, P.get_tracer c = t) ∧
    ((p.get_tracer c).1 = ModelTracer.noop ∨
      ∃ n v, (p.get_tracer c).1 = ModelTracer.real n v) := by
  refine ⟨⟨_, rfl⟩, ?_⟩
  unfold ModelProvider.get_tracer
  by_cases hs : p.suppressed
  · simp [hs]
  · by_cases hm : p.resolve c ∈ p.registry <;>
      simp [hs, hm]

/-- C2: when the requested name is the empty string, `get_tracer` still
returns a tracer, and that tracer equals the one returned for the provider's
fixed default identity with the same version. -/
theorem get_tracer_empty_name_default (p : ModelProvider) (c : TracerConfig)
    (h : c.name = "") :
    (p.get_tracer c).1 = (p.get_tracer ⟨p.defaultName, c.version⟩).1 := by
  unfold ModelProvider.get_tracer ModelProvider.resolve
  by_cases hs : p.suppressed
  · simp [hs]
  · by_cases hd : p.defaultName = "" <;>
      by_cases hm : ((if c.name = "" then p.defaultName else c.name, c.version)
          ∈ p.registry) <;>
      simp_all [h, hd, ite_self]

/-- Witness for C2 at a concrete provider and an empty-name config. -/
theorem get_tracer_empty_name_default_witness :
    ((⟨false, "default", [], []⟩ : ModelProvider).get_tracer ⟨"", some "1.0"⟩).1
      = ((⟨false, "default", [], []⟩ : ModelProvider).get_tracer
          ⟨"default", some "1.0"⟩).1 :=
  get_tracer_empty_name_default ⟨false, "default", [], []⟩ ⟨"", some "1.0"⟩ rfl

/-- C3: on a provider with `N` pipelines of which exactly pipeline `k` fails,
`force_flush` returns a sequence of length `N` whose entry `i` succeeds iff
`i ≠ k`: one failing pipeline neither aborts nor suppresses the flush and
the report of the others, and no aggregation into a single pass/fail
happens. -/
theorem force_flush_per_pipeline (p : ModelProvider) (k : Nat)
    (hk : k < p.pipelines.length)
    (hfail : ∀ i, (hi : i < p.pipelines.length) →
      ((p.pipelines.get ⟨i, hi⟩).flush.isOk = true ↔ i ≠ k)) :
    p.force_flush.length = p.pipelines.length ∧
    ∀ i, (hi : i < p.force_flush.length) →
      ((p.force_flush.get ⟨i, hi⟩).isOk = true ↔ i ≠ k) := by
  have hlen : p.force_flush.length = p.pipelines.length := by
    simp [ModelProvider.force_flush]
  refine ⟨hlen, ?_⟩
  intro i hi
  have hi' : i < p.pipelines.length := hlen ▸ hi
  have hmap : p.force_flush.get ⟨i, hi⟩ = (p.pipelines.get ⟨i, hi'⟩).flush := by
    simp [ModelProvider.force_flush]
  rw [hmap]
  exact hfail i hi'

/-- Witness for C3: a provider with two pipelines, the first failing, the
second succeeding, and `k = 0`. -/
theorem force_flush_per_pipeline_witness :
    (ModelProvider.force_flush
        ⟨false, "d", [], [⟨.err "boom"⟩, ⟨.ok ()⟩]⟩).length
      = (⟨false, "d", [], [⟨.err "boom"⟩, ⟨.ok ()⟩]⟩ :
          ModelProvider).pipelines.length ∧
    ∀ i, (hi : i < (ModelProvider.force_flush
        ⟨false, "d", [], [⟨.err "boom"⟩, ⟨.ok ()⟩]⟩).length) →
      (((ModelProvider.force_flush
          ⟨false, "d", [], [⟨.err "boom"⟩, ⟨.ok ()⟩]⟩).get ⟨i, hi⟩).isOk = true
        ↔ i ≠ 0) :=
  force_flush_per_pipeline ⟨false, "d", [], [⟨.err "boom"⟩, ⟨.ok ()⟩]⟩ 0
    (by decide) (by decide)

/-- C4: on a provider owning no span-processing pipelines, `force_flush`
returns the empty result sequence. -/
theorem force_flush_no_pipelines (p : ModelProvider)
    (h : p.pipelines = []) : p.force_flush = [] := by
  simp [ModelProvider.force_flush, h]

/-- Witness for C4 at a concrete pipeline-free provider. -/
theorem force_flush_no_pipelines_witness :
    ModelProvider.force_flush ⟨false, "d", [], []⟩ = [] :=
  force_flush_no_pipelines ⟨false, "d", [], []⟩ rfl

/-- C8: two sequential `get_tracer` calls with the same non-empty config —
the second call running on the provider state left by the first — return
equal tracers (two-run determinism over the stateful model). -/
theorem get_tracer_sequential_deterministic (p : ModelProvider)
    (c : TracerConfig) (h : c.name ≠ "") :
    (((p.get_tracer c).2).get_tracer c).1 = (p.get_tracer c).1 := by
  unfold ModelProvider.get_tracer ModelProvider.resolve
  by_cases hs : p.suppressed
  · simp [hs]
  · by_cases hm : ((if c.name = "" then p.defaultName else c.name, c.version)
        ∈ p.registry) <;>
      simp [hs, hm]

/-- Witness for C8: a fresh concrete provider and a non-empty identity; the
second call, on the state after the first, returns the same tracer. -/
theorem get_tracer_sequential_deterministic_witness :
    ((((⟨false, "default", [], []⟩ : ModelProvider).get_tracer
          ⟨"io.example.lib", some "2.1.0"⟩).2).get_tracer
        ⟨"io.example.lib", some "2.1.0"⟩).1
      = ((⟨false, "default", [], []⟩ : ModelProvider).get_tracer
          ⟨"io.example.lib", some "2.1.0"⟩).1 :=
  get_tracer_sequential_deterministic ⟨false, "default", [], []⟩
    ⟨"io.example.lib", some "2.1.0"⟩ (by decide)

end OTel
